import Mathlib

/-!
Verification of the Timewise-Scheduler integration layer
(src/services/google-sheets.ts, src/services/google-calendar.ts,
src/services/google-auth.ts) against its natural-language specification.

The TypeScript services are shallowly embedded: strings are `List Char`,
the remote spreadsheet is an explicit `Spreadsheet` state, every remote
API call is recorded in a trace, and remote failures are injected through
an explicit fault schedule.  JavaScript truthiness of strings (empty
string and `undefined` are falsy) is modelled by testing emptiness of a
`List Char` / absence of an `Option`.
-/

/-- Strings from the TypeScript code, embedded as lists of characters. -/
abbrev Str := List Char

/-- One spreadsheet row: a list of cell strings.  Cells beyond a row's
length (JS `undefined`) are modelled as the empty string, which is
equally falsy in every test the code performs. -/
abbrev Row := List Str

/-- JS `a.includes(b)` substring test. -/
def includesSub (s sub : Str) : Bool := decide (sub <:+: s)

/-- JS `a || b` for a possibly-undefined string `a`: empty and absent are
both falsy. -/
def jsOrStr : Option Str → Str → Str
  | some s, b => if s.isEmpty then b else s
  | none, b => b

/-- JS truthiness of a possibly-undefined string. -/
def optTruthy : Option Str → Bool
  | some s => !s.isEmpty
  | none => false

/-- JS `x || undefined` for a possibly-undefined string. -/
def orUndefined (o : Option Str) : Option Str :=
  if optTruthy o then o else none

/-- JS `Array.prototype.join(',')`. -/
def joinComma (l : List Str) : Str := List.intercalate [','] l

/-- JS `String.prototype.split(',')`. -/
def splitComma (s : Str) : List Str := s.splitOn ','

/-- Decimal rendering of a number, as JS produces when a number is
joined into a string. -/
def natChars (n : Nat) : Str := Nat.toDigits 10 n

/-- JS `Number(s)` as the code applies it: the stored weekday cells are
decimal digit strings, on which `Number` is ordinary decimal reading.
(Non-digit strings yield NaN in JS; the code only applies `Number` to
its own serialized weekday output, so that case is out of scope.) -/
def toNumber (s : Str) : Nat := s.foldl (fun a c => a * 10 + (c.toNat - 48)) 0

section Headers

/-- Modelled from the spec: the bookings tab header row.  The module
`src/lib/google-sheets-headers` is not under `src/`; the spec fixes the
positional order timestamp, name, email, phone, whatsapp, date, time. -/
def sheetHeaders : Row :=
  ["Timestamp", "Name", "Email", "Phone Number", "WhatsApp Number", "Date", "Time"].map
    String.toList

/-- Modelled from the spec: the configured header name of the booking
date column (from the missing `src/lib/google-sheets-headers`). -/
def bookingDateHeader : Str := "Date".toList

/-- Modelled from the spec: the configured header name of the booking
time column (from the missing `src/lib/google-sheets-headers`). -/
def bookingTimeHeader : Str := "Time".toList

/-- Modelled from the spec: the settings tab header row, a fixed
two-column key/value block (from the missing
`src/lib/google-sheets-headers`). -/
def settingsSheetHeaders : Row := ["Setting", "Value"].map String.toList

/-- Modelled from the spec: `ALL_POSSIBLE_TIMES` from the missing
`src/lib/datetime-utils`, an ordered sequence of time strings. -/
def ALL_POSSIBLE_TIMES : List Str :=
  ["09:00", "10:00", "11:00", "12:00", "14:00", "15:00", "16:00", "17:00"].map String.toList

end Headers

/-- `SchedulerSettings` from `src/ai/flows/get-scheduler-settings-flow`:
weekday integers, date strings, time-slot strings. -/
structure SchedulerSettings where
  availableWeekdays : List Nat
  disabledDates : List Str
  availableTimeSlots : List Str
deriving DecidableEq, Repr

/-- `DEFAULT_SETTINGS` from google-sheets.ts. -/
def DEFAULT_SETTINGS : SchedulerSettings :=
  { availableWeekdays := [1, 2, 3, 4, 5, 6]
    disabledDates := []
    availableTimeSlots := ALL_POSSIBLE_TIMES }

/-- `StoreUserDetailsInput` from `src/ai/flows/store-user-details`. -/
structure StoreUserDetailsInput where
  name : Str
  email : Str
  phoneNumber : Str
  whatsappNumber : Str
  bookingDate : Str
  bookingTime : Str
deriving DecidableEq, Repr

section Dates

/-- A calendar date as carried by a JS `Date` at start of day.
`month` is 1-based as written in the ISO string. -/
structure SDate where
  year : Nat
  month : Nat
  day : Nat
deriving DecidableEq, Repr

def allDigits (s : Str) : Bool := s.all Char.isDigit

def digitsVal (s : Str) : Nat := s.foldl (fun a c => a * 10 + (c.toNat - 48)) 0

def mkDate (y m d : Nat) : Option SDate :=
  if 1 ≤ m && m ≤ 12 && 1 ≤ d && d ≤ 31 then some ⟨y, m, d⟩ else none

/-- `startOfDay(new Date(dateStr))` from google-sheets.ts.  Models the
JS `Date` constructor on the textual date formats the repository's
data uses: ISO `yyyy-MM-dd` and US `MM/dd/yyyy`.  Every other string
yields an invalid date.  Crucially, in JS an unparseable string yields
the *value* Invalid Date rather than raising an exception, and
date-fns `startOfDay`/`getYear`/`getMonth` map it to NaN; `none` here
therefore corresponds to NaN propagation, never to a thrown error. -/
def parseDate (s : Str) : Option SDate :=
  match s with
  | [y1, y2, y3, y4, '-', m1, m2, '-', d1, d2] =>
    if allDigits [y1, y2, y3, y4] && allDigits [m1, m2] && allDigits [d1, d2] then
      mkDate (digitsVal [y1, y2, y3, y4]) (digitsVal [m1, m2]) (digitsVal [d1, d2])
    else none
  | [m1, m2, '/', d1, d2, '/', y1, y2, y3, y4] =>
    if allDigits [m1, m2] && allDigits [d1, d2] && allDigits [y1, y2, y3, y4] then
      mkDate (digitsVal [y1, y2, y3, y4]) (digitsVal [m1, m2]) (digitsVal [d1, d2])
    else none
  | _ => none

/-- date-fns `getYear`. -/
def getYearD (d : SDate) : Nat := d.year

/-- date-fns `getMonth` (0-based month, as in JS). -/
def getMonthD (d : SDate) : Nat := d.month - 1

def padZero (s : Str) (n : Nat) : Str := List.replicate (n - s.length) '0' ++ s

/-- date-fns `format(d, 'yyyy-MM-dd')`. -/
def formatISO (d : SDate) : Str :=
  padZero (natChars d.year) 4 ++ '-' :: padZero (natChars d.month) 2 ++
    '-' :: padZero (natChars d.day) 2

end Dates

section CountMaps

/-- A JS object used as a string-keyed counter (`Record<string, number>`),
modelled as an insertion-ordered association list. -/
abbrev CountMap := List (Str × Nat)

/-- `m[k] = (m[k] || 0) + 1` on a JS object. -/
def bump (m : CountMap) (k : Str) : CountMap :=
  if m.any (fun p => p.1 == k) then
    m.map (fun p => if p.1 == k then (p.1, p.2 + 1) else p)
  else m ++ [(k, 1)]

/-- `m[k] || 0` on a JS object. -/
def lookupCount (m : CountMap) (k : Str) : Nat :=
  match m.find? (fun p => p.1 == k) with
  | some p => p.2
  | none => 0

end CountMaps

section SheetsState

/-- One tab of the remote spreadsheet. -/
structure Tab where
  title : Str
  rows : List Row
deriving DecidableEq, Repr

/-- The remote spreadsheet: a list of named tabs.  A freshly created tab
has no rows (the real service reports an empty value range). -/
structure Spreadsheet where
  tabs : List Tab
deriving DecidableEq, Repr

def findTab (s : Spreadsheet) (name : Str) : Option Tab :=
  s.tabs.find? (fun t => t.title == name)

def addTab (s : Spreadsheet) (name : Str) : Spreadsheet :=
  ⟨s.tabs ++ [⟨name, []⟩]⟩

def setTabRows (s : Spreadsheet) (name : Str) (rows : List Row) : Spreadsheet :=
  ⟨s.tabs.map fun t => if t.title == name then ⟨t.title, rows⟩ else t⟩

/-- The A1 ranges the services actually request. -/
inductive SRange
  /-- the bare tab name -/
  | whole (tab : Str)
  /-- tab!A1:Z1 -/
  | headerRow (tab : Str)
  /-- tab!A2:B4 -/
  | kvBlock (tab : Str)
  /-- tab!A2:B -/
  | kvAll (tab : Str)
  /-- tab!A1 -/
  | cellA1 (tab : Str)
  /-- tab!A2 -/
  | cellA2 (tab : Str)
deriving DecidableEq, Repr

def SRange.tab : SRange → Str
  | .whole t | .headerRow t | .kvBlock t | .kvAll t | .cellA1 t | .cellA2 t => t

/-- The row the range starts at (0-based), for updates. -/
def SRange.startRow : SRange → Nat
  | .whole _ | .headerRow _ | .cellA1 _ => 0
  | .kvBlock _ | .kvAll _ | .cellA2 _ => 1

/-- The sub-grid of a tab's rows addressed by a range. -/
def sliceRows (rows : List Row) : SRange → List Row
  | .whole _ => rows
  | .headerRow _ => (rows.take 1).map (fun r => r.take 26)
  | .kvBlock _ => ((rows.drop 1).take 3).map (fun r => r.take 2)
  | .kvAll _ => (rows.drop 1).map (fun r => r.take 2)
  | .cellA1 _ => (rows.take 1).map (fun r => r.take 1)
  | .cellA2 _ => ((rows.drop 1).take 1).map (fun r => r.take 1)

/-- Remote API errors: the structural error the Sheets service reports
for a range naming a nonexistent tab, the batchUpdate error for adding a
tab whose title is taken, and injected transient failures carrying an
arbitrary message. -/
inductive ApiErr
  | unableToParseRange
  | alreadyExists
  | injected (msg : Str)
deriving DecidableEq, Repr

/-- The message text the code extracts from an error
(`response?.data?.error?.message` / `message`). -/
def ApiErr.detail : ApiErr → Str
  | .unableToParseRange => "Unable to parse range".toList
  | .alreadyExists => "A sheet with that name already exists".toList
  | .injected m => m

/-- Trace of remote API calls, for call-counting properties. -/
inductive ApiCall
  | get (r : SRange)
  | append (r : SRange) (values : List Row)
  | update (r : SRange) (values : List Row)
  | addSheet (title : Str)
deriving DecidableEq, Repr

/-- The world an operation runs in: remote spreadsheet state, a schedule
of injected remote faults (one optional fault per successive API call;
an exhausted schedule injects nothing), the trace of calls made, and the
console log. -/
structure W where
  st : Spreadsheet
  faults : List (Option ApiErr)
  calls : List ApiCall
  logs : List Str
deriving DecidableEq, Repr

def takeFault (w : W) : Option ApiErr × W :=
  match w.faults with
  | [] => (none, w)
  | f :: fs => (f, { w with faults := fs })

def recordCall (w : W) (c : ApiCall) : W := { w with calls := w.calls ++ [c] }

def logNote (w : W) (m : Str) : W := { w with logs := w.logs ++ [m] }

/-- `sheets.spreadsheets.values.get` -/
def apiGet (w : W) (r : SRange) : Except ApiErr (List Row) × W :=
  let fw := takeFault w
  let w2 := recordCall fw.2 (.get r)
  match fw.1 with
  | some e => (.error e, w2)
  | none =>
    match findTab w2.st r.tab with
    | none => (.error .unableToParseRange, w2)
    | some t => (.ok (sliceRows t.rows r), w2)

/-- `sheets.spreadsheets.values.append`: rows are appended after the
existing table of the addressed tab. -/
def apiAppend (w : W) (r : SRange) (vs : List Row) : Except ApiErr Unit × W :=
  let fw := takeFault w
  let w2 := recordCall fw.2 (.append r vs)
  match fw.1 with
  | some e => (.error e, w2)
  | none =>
    match findTab w2.st r.tab with
    | none => (.error .unableToParseRange, w2)
    | some t => (.ok (), { w2 with st := setTabRows w2.st r.tab (t.rows ++ vs) })

def writeRow (old new : Row) : Row := new ++ old.drop new.length

def writeRows : List Row → List Row → List Row
  | old, [] => old
  | [], v :: vs => writeRow [] v :: writeRows [] vs
  | r :: rs, v :: vs => writeRow r v :: writeRows rs vs

def overwriteRows : List Row → Nat → List Row → List Row
  | rows, 0, vs => writeRows rows vs
  | [], i + 1, vs => [] :: overwriteRows [] i vs
  | r :: rs, i + 1, vs => r :: overwriteRows rs i vs

/-- `sheets.spreadsheets.values.update`: overwrites the cells of the
addressed range, row by row, leaving cells right of each written row
unchanged. -/
def apiUpdate (w : W) (r : SRange) (vs : List Row) : Except ApiErr Unit × W :=
  let fw := takeFault w
  let w2 := recordCall fw.2 (.update r vs)
  match fw.1 with
  | some e => (.error e, w2)
  | none =>
    match findTab w2.st r.tab with
    | none => (.error .unableToParseRange, w2)
    | some t => (.ok (), { w2 with st := setTabRows w2.st r.tab (overwriteRows t.rows r.startRow vs) })

/-- `sheets.spreadsheets.batchUpdate` with a single addSheet request. -/
def apiAddSheet (w : W) (title : Str) : Except ApiErr Unit × W :=
  let fw := takeFault w
  let w2 := recordCall fw.2 (.addSheet title)
  match fw.1 with
  | some e => (.error e, w2)
  | none =>
    match findTab w2.st title with
    | some _ => (.error .alreadyExists, w2)
    | none => (.ok (), { w2 with st := addTab w2.st title })

end SheetsState

section EnvModel

/-- The environment configuration the services read.  A `Bool` models
whether `getSheetsClient`/`getCalendarClient` return a client (they
return null when credentials are missing or the key is not PEM).
`Option Str` fields model `process.env` variables, `none` meaning unset;
an empty string is equally falsy wherever the code tests them. -/
structure Env where
  sheetsClient : Bool
  calendarClient : Bool
  sheetId : Option Str
  sheetName : Option Str
  settingsSheetName : Option Str
  calendarId : Option Str
  meetLink : Option Str
deriving DecidableEq, Repr

/-- `process.env.GOOGLE_SHEET_NAME || 'Bookings'` -/
def bookingsName (env : Env) : Str := jsOrStr env.sheetName "Bookings".toList

/-- `process.env.GOOGLE_SETTINGS_SHEET_NAME || 'Settings'` -/
def settingsName (env : Env) : Str := jsOrStr env.settingsSheetName "Settings".toList

end EnvModel

section Messages

def unableToParseRangeMsg : Str := "Unable to parse range".toList

def alreadyExistsMsg : Str := "already exists".toList

def configErrNoSheetsBooking : Str :=
  "Configuration Error: Google Sheets integration is not configured on the server. Cannot save booking.".toList

def configErrNoSheetsSettings : Str :=
  "Configuration Error: Google Sheets integration is not configured on the server. Cannot save settings.".toList

def configErrNoSheetId : Str :=
  "Configuration Error: GOOGLE_SHEET_ID is not configured.".toList

def appendFailMsg : Str :=
  "Failed to save booking. Please try again later. (Reason: Google Sheets Error)".toList

def settingsFailMsg : Str :=
  "Failed to save settings. Please try again later. (Reason: Google Sheets Error)".toList

def warnNoSheetsClientCounts : Str :=
  "Google Sheets client not available. Returning empty booking counts.".toList

def warnNoSheetsClientSlots : Str :=
  "Google Sheets client not available. Returning empty booked slots.".toList

def warnNoSheetsClientSettings : Str :=
  "Google Sheets client not available. Using default scheduler settings.".toList

def warnNoDateColumn : Str :=
  "The booking sheet requires a Date column, but it was not found. Assuming no bookings for this month.".toList

def warnNoDateTimeColumns : Str :=
  "The booking sheet requires Date and Time columns, but one or both were not found. Assuming no booked slots for this day.".toList

def warnCouldNotParseDate (dateStr : Str) : Str :=
  "Could not parse date from sheet: ".toList ++ dateStr

def countsFetchErrorLog (e : ApiErr) : Str :=
  "Could not fetch booking counts due to a Google Sheets error. Please check your configuration. Message: ".toList ++ e.detail

def slotsFetchErrorLog (e : ApiErr) : Str :=
  "Could not fetch booked time slots due to a Google Sheets error. Please check your configuration. Message: ".toList ++ e.detail

def appendErrorLog (e : ApiErr) : Str :=
  "Could not append user details due to a Google Sheets error. Please check your configuration. Message: ".toList ++ e.detail

def settingsFetchErrorLog (e : ApiErr) : Str :=
  "Could not fetch scheduler settings due to a Google Sheets error. Please check your configuration. Message: ".toList ++ e.detail

def warnDefaultSettings : Str :=
  "Returning default settings due to Google Sheets API error.".toList

def settingsUpdateErrorLog (e : ApiErr) : Str :=
  "Could not update settings due to a Google Sheets error. Please check your configuration. Message: ".toList ++ e.detail

def awKey : Str := "availableWeekdays".toList

def ddKey : Str := "disabledDates".toList

def atsKey : Str := "availableTimeSlots".toList

end Messages

section SheetsOps

/-- Loop body of `getBookingCountsForMonth` over the data rows (the
`for` loop from row 1 on).  A cell that parses to a date in the
requested year/month is bucketed under its `yyyy-MM-dd` key; an
unparseable cell propagates NaN through the year/month comparison and
is skipped without any exception (see `parseDate`). -/
def countRows (year month dateIdx : Nat) (rows : List Row) : CountMap :=
  rows.foldl
    (fun m row =>
      let dateStr := row.getD dateIdx []
      if dateStr.isEmpty then m
      else
        match parseDate dateStr with
        | some d =>
          if getYearD d == year && getMonthD d == month then bump m (formatISO d) else m
        | none => m)
    []

/-- `getBookingCountsForMonth` from google-sheets.ts. -/
def getBookingCountsForMonth (env : Env) (year month : Nat) (w : W) : CountMap × W :=
  if !env.sheetsClient then ([], logNote w warnNoSheetsClientCounts)
  else if !optTruthy env.sheetId then ([], w)
  else
    match apiGet w (.whole (bookingsName env)) with
    | (.error e, w1) => ([], logNote w1 (countsFetchErrorLog e))
    | (.ok rows, w1) =>
      if rows.isEmpty then ([], w1)
      else
        let headers := rows.headD []
        match headers.findIdx? (fun h => h == bookingDateHeader) with
        | none => ([], logNote w1 warnNoDateColumn)
        | some dateIdx => (countRows year month dateIdx (rows.drop 1), w1)

/-- Counting pass of `getBookedTimeSlotsForDay`: filter rows whose date
cell is *string-identical* to the requested date, then count occurrences
of each truthy time cell. -/
def countSlots (date : Str) (dateIdx timeIdx : Nat) (rows : List Row) : CountMap :=
  (rows.filter (fun row => row.getD dateIdx [] == date)).foldl
    (fun m row =>
      let time := row.getD timeIdx []
      if time.isEmpty then m else bump m time)
    []

/-- `getBookedTimeSlotsForDay` from google-sheets.ts. -/
def getBookedTimeSlotsForDay (env : Env) (date : Str) (w : W) : CountMap × W :=
  if !env.sheetsClient then ([], logNote w warnNoSheetsClientSlots)
  else if !optTruthy env.sheetId then ([], w)
  else
    match apiGet w (.whole (bookingsName env)) with
    | (.error e, w1) => ([], logNote w1 (slotsFetchErrorLog e))
    | (.ok rows, w1) =>
      if rows.length < 2 then ([], w1)
      else
        let headers := rows.headD []
        match headers.findIdx? (fun h => h == bookingDateHeader),
              headers.findIdx? (fun h => h == bookingTimeHeader) with
        | some dateIdx, some timeIdx => (countSlots date dateIdx timeIdx (rows.drop 1), w1)
        | none, _ => ([], logNote w1 warnNoDateTimeColumns)
        | some _, none => ([], logNote w1 warnNoDateTimeColumns)

/-- `ensureSheetAndHeader` from google-sheets.ts: probe tab!A1:Z1; when
the range cannot be parsed (the tab does not exist), create the tab
(tolerating an already-exists race) and write the header row at A1. -/
def ensureSheetAndHeader (w : W) (sheetName : Str) (headers : Row) : Except ApiErr Unit × W :=
  match apiGet w (.headerRow sheetName) with
  | (.ok _, w1) => (.ok (), w1)
  | (.error err, w1) =>
    if includesSub err.detail unableToParseRangeMsg then
      let created :=
        match apiAddSheet w1 sheetName with
        | (.ok _, w2) => (Except.ok (), w2)
        | (.error e2, w2) =>
          if includesSub e2.detail alreadyExistsMsg then (Except.ok (), w2) else (.error e2, w2)
      match created with
      | (.ok _, w2) => apiUpdate w2 (.cellA1 sheetName) [headers]
      | (.error e2, w2) => (.error e2, w2)
    else (.error err, w1)

/-- The one booking row `appendUserDetails` appends.  `timestamp` stands
for `new Date().toISOString()`, supplied by the clock. -/
def bookingRow (timestamp : Str) (d : StoreUserDetailsInput) : Row :=
  [timestamp, d.name, d.email, d.phoneNumber, d.whatsappNumber, d.bookingDate, d.bookingTime]

/-- The try-block of `appendUserDetails`: ensure tab and header, then
append the single booking row. -/
def appendUserDetailsBody (env : Env) (timestamp : Str) (details : StoreUserDetailsInput)
    (w : W) : Except ApiErr Unit × W :=
  match ensureSheetAndHeader w (bookingsName env) sheetHeaders with
  | (.error e, w1) => (.error e, w1)
  | (.ok _, w1) => apiAppend w1 (.whole (bookingsName env)) [bookingRow timestamp details]

/-- `appendUserDetails` from google-sheets.ts. -/
def appendUserDetails (env : Env) (timestamp : Str) (details : StoreUserDetailsInput)
    (w : W) : Except Str Unit × W :=
  if !env.sheetsClient then (.error configErrNoSheetsBooking, w)
  else if !optTruthy env.sheetId then (.error configErrNoSheetId, w)
  else
    match appendUserDetailsBody env timestamp details w with
    | (.ok _, w1) => (.ok (), w1)
    | (.error e, w1) => (.error appendFailMsg, logNote w1 (appendErrorLog e))

/-- `new Map(values.map(row => [row[0], row[1]])).has(k)` -/
def mapHas (values : List Row) (k : Str) : Bool :=
  values.any (fun r => r.getD 0 [] == k)

/-- `new Map(values.map(row => [row[0], row[1]])).get(k)`, with a JS
Map's last-entry-wins construction; an absent key and an absent second
cell both produce the falsy value modelled as the empty string. -/
def mapGet (values : List Row) (k : Str) : Str :=
  match values.reverse.find? (fun r => r.getD 0 [] == k) with
  | some r => r.getD 1 []
  | none => []

/-- The default key/value rows `ensureSettingsSheet` writes. -/
def defaultSettingsRows : List Row :=
  [[awKey, joinComma (DEFAULT_SETTINGS.availableWeekdays.map natChars)],
   [ddKey, []],
   [atsKey, joinComma DEFAULT_SETTINGS.availableTimeSlots]]

/-- The try-block of `ensureSettingsSheet`: ensure tab and header exist,
read the key/value block A2:B4, and append a default row for every
missing key. -/
def ensureSettingsSheetBody (sheetName : Str) (w : W) : Except ApiErr Unit × W :=
  match ensureSheetAndHeader w sheetName settingsSheetHeaders with
  | (.error e, w1) => (.error e, w1)
  | (.ok _, w1) =>
    match apiGet w1 (.kvBlock sheetName) with
    | (.error e, w2) => (.error e, w2)
    | (.ok values, w2) =>
      let settingsToWrite :=
        (if mapHas values awKey then []
         else [[awKey, joinComma (DEFAULT_SETTINGS.availableWeekdays.map natChars)]]) ++
        (if mapHas values ddKey then [] else [[ddKey, []]]) ++
        (if mapHas values atsKey then []
         else [[atsKey, joinComma DEFAULT_SETTINGS.availableTimeSlots]])
      if settingsToWrite.isEmpty then (.ok (), w2)
      else apiAppend w2 (.cellA2 sheetName) settingsToWrite

/-- `ensureSettingsSheet` from google-sheets.ts, with its catch branch:
an unparseable-range failure is answered by writing the complete default
block at A2; any other failure is rethrown. -/
def ensureSettingsSheet (sheetName : Str) (w : W) : Except ApiErr Unit × W :=
  match ensureSettingsSheetBody sheetName w with
  | (.ok _, w1) => (.ok (), w1)
  | (.error e, w1) =>
    if includesSub e.detail unableToParseRangeMsg then
      apiUpdate w1 (.cellA2 sheetName) defaultSettingsRows
    else (.error e, w1)

/-- The try-block of `getSchedulerSettingsFromSheet`: ensure the
settings sheet, read A2:B, and decode the three key/value rows, falling
back to defaults for falsy values. -/
def getSettingsBody (sheetName : Str) (w : W) : Except ApiErr SchedulerSettings × W :=
  match ensureSettingsSheet sheetName w with
  | (.error e, w1) => (.error e, w1)
  | (.ok _, w1) =>
    match apiGet w1 (.kvAll sheetName) with
    | (.error e, w2) => (.error e, w2)
    | (.ok values, w2) =>
      if values.isEmpty then (.ok DEFAULT_SETTINGS, w2)
      else
        let awS := mapGet values awKey
        let ddS := mapGet values ddKey
        let atsS := mapGet values atsKey
        (.ok
          { availableWeekdays :=
              if awS.isEmpty then DEFAULT_SETTINGS.availableWeekdays
              else (splitComma awS).map toNumber
            disabledDates :=
              if ddS.isEmpty then DEFAULT_SETTINGS.disabledDates
              else (splitComma ddS).filter (fun x => !x.isEmpty)
            availableTimeSlots :=
              if atsS.isEmpty then DEFAULT_SETTINGS.availableTimeSlots
              else splitComma atsS }, w2)

/-- `getSchedulerSettingsFromSheet` from google-sheets.ts. -/
def getSchedulerSettingsFromSheet (env : Env) (w : W) : SchedulerSettings × W :=
  if !env.sheetsClient then (DEFAULT_SETTINGS, logNote w warnNoSheetsClientSettings)
  else if !optTruthy env.sheetId then (DEFAULT_SETTINGS, w)
  else
    match getSettingsBody (settingsName env) w with
    | (.ok s, w1) => (s, w1)
    | (.error e, w1) =>
      (DEFAULT_SETTINGS, logNote (logNote w1 (settingsFetchErrorLog e)) warnDefaultSettings)

/-- The three serialized key/value rows `updateSchedulerSettingsInSheet`
writes over A2:B4. -/
def settingsRows (s : SchedulerSettings) : List Row :=
  [[awKey, joinComma (s.availableWeekdays.map natChars)],
   [ddKey, joinComma s.disabledDates],
   [atsKey, joinComma s.availableTimeSlots]]

/-- The try-block of `updateSchedulerSettingsInSheet`. -/
def updateSettingsBody (sheetName : Str) (s : SchedulerSettings) (w : W) :
    Except ApiErr Unit × W :=
  match ensureSettingsSheet sheetName w with
  | (.error e, w1) => (.error e, w1)
  | (.ok _, w1) => apiUpdate w1 (.kvBlock sheetName) (settingsRows s)

/-- `updateSchedulerSettingsInSheet` from google-sheets.ts. -/
def updateSchedulerSettingsInSheet (env : Env) (s : SchedulerSettings) (w : W) :
    Except Str Unit × W :=
  if !env.sheetsClient then (.error configErrNoSheetsSettings, w)
  else if !optTruthy env.sheetId then (.error configErrNoSheetId, w)
  else
    match updateSettingsBody (settingsName env) s w with
    | (.ok _, w1) => (.ok (), w1)
    | (.error e, w1) => (.error settingsFailMsg, logNote w1 (settingsUpdateErrorLog e))

end SheetsOps

section CalendarOps

/-- The data the code reads off a GaxiosError when event insertion
fails: `response?.data?.error_description`, `response?.data?.error?.message`
and the plain `message`. -/
structure GaxiosErrData where
  errorDescription : Option Str
  errorMessage : Option Str
  message : Str
deriving DecidableEq, Repr

/-- What the remote returns for a successfully inserted event.  The
service may attach its own generated conferencing link; the code never
reads it, which claim C10 is about. -/
structure CreatedEvent where
  htmlLink : Option Str
  hangoutLink : Option Str
deriving DecidableEq, Repr

/-- The return shape of `createCalendarEvent`. -/
structure CalendarResult where
  htmlLink : Option Str
  hangoutLink : Option Str
deriving DecidableEq, Repr

/-- The event payload `createCalendarEvent` inserts.  ISO rendering of
the start/end instants is not modelled (no claim concerns it); the
instants are kept as epoch milliseconds. -/
structure EventPayload where
  summary : Str
  description : Str
  startMs : Nat
  endMs : Nat
  attendee : Str
  conferenceUri : Option Str
  location : Option Str
deriving DecidableEq, Repr

/-- `error.response?.data?.error_description || error.response?.data?.error?.message || e.message` -/
def gaxiosMessage (e : GaxiosErrData) : Str :=
  jsOrStr e.errorDescription (jsOrStr e.errorMessage e.message)

def invalidGrantMarker : Str := "invalid_grant".toList

def apiNotUsedMarker : Str := "API has not been used".toList

def authFailedMsg : Str :=
  "Authentication failed with Google Calendar. Please check your service account credentials.".toList

def apiNotEnabledMsg : Str :=
  "The Google Calendar API is not enabled for your project. Please enable it in the Google Cloud Console.".toList

def calendarGenericMsg (gmsg : Str) : Str :=
  "An error occurred with the Google Calendar API: ".toList ++ gmsg

def summaryHead : Str := "Drive by Talrop Booking: ".toList

def descriptionHead (name email : Str) : Str :=
  "This is a booking confirmation for a meeting with ".toList ++ name ++
    " (".toList ++ email ++ ").".toList

def joinHereText : Str := "Join the meeting here: ".toList

/-- The classification of a failed insertion into the user-facing
message thrown to the caller (the if/else chain of the catch block). -/
def classifyCalendarError (e : GaxiosErrData) : Str :=
  let gmsg := gaxiosMessage e
  if includesSub gmsg invalidGrantMarker then authFailedMsg
  else if (match e.errorMessage with
           | some m => includesSub m apiNotUsedMarker
           | none => false) then apiNotEnabledMsg
  else calendarGenericMsg gmsg

/-- `createCalendarEvent` from google-calendar.ts.  `remote` is the
outcome the calendar service would give to an insertion; the second
component of the result is the payload actually inserted, `none` when
no remote call was made. -/
def createCalendarEvent (env : Env) (name email : Str) (startMs : Nat)
    (remote : Except GaxiosErrData CreatedEvent) :
    Except Str CalendarResult × Option EventPayload :=
  if !env.calendarClient then
    (.ok { htmlLink := none, hangoutLink := orUndefined env.meetLink }, none)
  else if !optTruthy env.calendarId then
    (.ok { htmlLink := none, hangoutLink := env.meetLink }, none)
  else
    let eventDescription :=
      if optTruthy env.meetLink then
        descriptionHead name email ++ joinHereText ++ env.meetLink.getD []
      else descriptionHead name email
    let payload : EventPayload :=
      { summary := summaryHead ++ name
        description := eventDescription
        startMs := startMs
        endMs := startMs + 60 * 60 * 1000
        attendee := email
        conferenceUri := if optTruthy env.meetLink then env.meetLink else none
        location := if optTruthy env.meetLink then env.meetLink else none }
    match remote with
    | .ok ev =>
      (.ok { htmlLink := orUndefined ev.htmlLink, hangoutLink := env.meetLink }, some payload)
    | .error e => (.error (classifyCalendarError e), some payload)

end CalendarOps

section ClaimC4

/-- C4: when no credentials are configured (the client is absent), every
read operation (`getBookingCountsForMonth`, `getBookedTimeSlotsForDay`,
`getSchedulerSettingsFromSheet`) returns its empty/default value without
attempting any remote call, and every write operation
(`appendUserDetails`, `updateSchedulerSettingsInSheet`) throws a
configuration error without attempting any remote call. -/
theorem unconfigured_reads_default_writes_throw (env : Env) (w : W)
    (year month : Nat) (date timestamp : Str) (details : StoreUserDetailsInput)
    (s : SchedulerSettings) (hc : env.sheetsClient = false) :
    (getBookingCountsForMonth env year month w).1 = [] ∧
    (getBookingCountsForMonth env year month w).2.calls = w.calls ∧
    (getBookedTimeSlotsForDay env date w).1 = [] ∧
    (getBookedTimeSlotsForDay env date w).2.calls = w.calls ∧
    (getSchedulerSettingsFromSheet env w).1 = DEFAULT_SETTINGS ∧
    (getSchedulerSettingsFromSheet env w).2.calls = w.calls ∧
    (appendUserDetails env timestamp details w).1 = .error configErrNoSheetsBooking ∧
    (appendUserDetails env timestamp details w).2.calls = w.calls ∧
    (updateSchedulerSettingsInSheet env s w).1 = .error configErrNoSheetsSettings ∧
    (updateSchedulerSettingsInSheet env s w).2.calls = w.calls := by
  simp [getBookingCountsForMonth, getBookedTimeSlotsForDay, getSchedulerSettingsFromSheet,
    appendUserDetails, updateSchedulerSettingsInSheet, logNote, hc]

def envOff : Env :=
  { sheetsClient := false, calendarClient := false, sheetId := none, sheetName := none
    settingsSheetName := none, calendarId := none, meetLink := none }

def w0 : W := { st := ⟨[]⟩, faults := [], calls := [], logs := [] }

def details0 : StoreUserDetailsInput :=
  { name := "Ann".toList, email := "ann@example.com".toList, phoneNumber := "1".toList
    whatsappNumber := "2".toList, bookingDate := "2024-05-10".toList
    bookingTime := "10:00".toList }

/-- Witness for C4 at a concrete unconfigured environment. -/
theorem unconfigured_reads_default_writes_throw_witness :
    (getBookingCountsForMonth envOff 2024 4 w0).1 = [] ∧
    (getBookingCountsForMonth envOff 2024 4 w0).2.calls = w0.calls ∧
    (getBookedTimeSlotsForDay envOff "2024-05-10".toList w0).1 = [] ∧
    (getBookedTimeSlotsForDay envOff "2024-05-10".toList w0).2.calls = w0.calls ∧
    (getSchedulerSettingsFromSheet envOff w0).1 = DEFAULT_SETTINGS ∧
    (getSchedulerSettingsFromSheet envOff w0).2.calls = w0.calls ∧
    (appendUserDetails envOff "ts".toList details0 w0).1 = .error configErrNoSheetsBooking ∧
    (appendUserDetails envOff "ts".toList details0 w0).2.calls = w0.calls ∧
    (updateSchedulerSettingsInSheet envOff DEFAULT_SETTINGS w0).1 = .error configErrNoSheetsSettings ∧
    (updateSchedulerSettingsInSheet envOff DEFAULT_SETTINGS w0).2.calls = w0.calls :=
  unconfigured_reads_default_writes_throw envOff w0 2024 4 "2024-05-10".toList "ts".toList
    details0 DEFAULT_SETTINGS rfl

end ClaimC4

section ClaimC7

/-- C7: when the calendar client is available but no calendar identifier
is configured, `createCalendarEvent` returns a result containing only
the static fallback link and performs no remote API call. -/
theorem calendar_no_id_fallback (env : Env) (name email : Str) (startMs : Nat)
    (remote : Except GaxiosErrData CreatedEvent)
    (hc : env.calendarClient = true) (hid : optTruthy env.calendarId = false) :
    createCalendarEvent env name email startMs remote =
      (.ok { htmlLink := none, hangoutLink := env.meetLink }, none) := by
  simp [createCalendarEvent, hc, hid]

def envCalNoId : Env :=
  { sheetsClient := true, calendarClient := true, sheetId := some "sid".toList
    sheetName := none, settingsSheetName := none, calendarId := none
    meetLink := some "meet.example".toList }

/-- Witness for C7 at a concrete environment without a calendar id. -/
theorem calendar_no_id_fallback_witness :
    createCalendarEvent envCalNoId "Ann".toList "ann@example.com".toList 0
        (.ok { htmlLink := some "h".toList, hangoutLink := some "g".toList }) =
      (.ok { htmlLink := none, hangoutLink := some "meet.example".toList }, none) :=
  calendar_no_id_fallback envCalNoId "Ann".toList "ann@example.com".toList 0
    (.ok { htmlLink := some "h".toList, hangoutLink := some "g".toList }) rfl rfl

end ClaimC7

section ClaimC10

/-- C10: on successful calendar-event creation, the `hangoutLink` in the
result of `createCalendarEvent` is always the statically configured
fallback meeting link (or absent if none is configured), never the
conferencing link carried by the created event itself; only `htmlLink`
comes from the created event. -/
theorem calendar_static_hangout_link (env : Env) (name email : Str) (startMs : Nat)
    (ev : CreatedEvent) (hc : env.calendarClient = true)
    (hid : optTruthy env.calendarId = true) :
    (createCalendarEvent env name email startMs (.ok ev)).1 =
      .ok { htmlLink := orUndefined ev.htmlLink, hangoutLink := env.meetLink } := by
  simp [createCalendarEvent, hc, hid]

def envCal : Env :=
  { sheetsClient := true, calendarClient := true, sheetId := some "sid".toList
    sheetName := none, settingsSheetName := none, calendarId := some "cal".toList
    meetLink := some "meet.example".toList }

/-- Witness for C10: the event's own generated conferencing link is
discarded in favour of the static fallback link. -/
theorem calendar_static_hangout_link_witness :
    (createCalendarEvent envCal "Ann".toList "ann@example.com".toList 0
        (.ok { htmlLink := some "h".toList, hangoutLink := some "generated.link".toList })).1 =
      .ok { htmlLink := some "h".toList, hangoutLink := some "meet.example".toList } :=
  calendar_static_hangout_link envCal "Ann".toList "ann@example.com".toList 0
    { htmlLink := some "h".toList, hangoutLink := some "generated.link".toList } rfl rfl

end ClaimC10

section ClaimC5

/-- C5: when calendar-event insertion fails, `createCalendarEvent`
raises a user-facing error classified from the remote error: an
invalid-credentials message when the upstream error indicates
`invalid_grant`, an API-not-enabled message when the upstream structured
error message says the API has not been used, and a generic message
embedding the upstream description otherwise; the error is raised to
the caller rather than swallowed. -/
theorem calendar_error_classification (env : Env) (name email : Str) (startMs : Nat)
    (e : GaxiosErrData) (hc : env.calendarClient = true)
    (hid : optTruthy env.calendarId = true) :
    (includesSub (gaxiosMessage e) invalidGrantMarker = true →
      (createCalendarEvent env name email startMs (.error e)).1 = .error authFailedMsg) ∧
    (∀ m, includesSub (gaxiosMessage e) invalidGrantMarker = false →
      e.errorMessage = some m → includesSub m apiNotUsedMarker = true →
      (createCalendarEvent env name email startMs (.error e)).1 = .error apiNotEnabledMsg) ∧
    (includesSub (gaxiosMessage e) invalidGrantMarker = false →
      e.errorMessage.elim false (fun m => includesSub m apiNotUsedMarker) = false →
      (createCalendarEvent env name email startMs (.error e)).1 =
        .error (calendarGenericMsg (gaxiosMessage e))) := by
  refine ⟨fun h1 => ?_, fun m h1 h2 h3 => ?_, fun h1 h2 => ?_⟩
  · simp [createCalendarEvent, hc, hid, classifyCalendarError, h1]
  · simp [createCalendarEvent, hc, hid, classifyCalendarError, h1, h2, h3]
  · cases h : e.errorMessage with
    | none => simp_all [createCalendarEvent, hc, hid, classifyCalendarError]
    | some m => simp_all [createCalendarEvent, hc, hid, classifyCalendarError]

def eGrant : GaxiosErrData :=
  { errorDescription := some "invalid_grant: account not found".toList
    errorMessage := none, message := "request failed".toList }

/-- Witness for C5: a concrete `invalid_grant` failure yields the
invalid-credentials message. -/
theorem calendar_error_classification_witness :
    (createCalendarEvent envCal "Ann".toList "ann@example.com".toList 0 (.error eGrant)).1 =
      .error authFailedMsg :=
  (calendar_error_classification envCal "Ann".toList "ann@example.com".toList 0 eGrant
      rfl rfl).1 (by decide)

end ClaimC5

section StateLemmas

theorem findTab_addTab_self (s : Spreadsheet) (n : Str) (h : findTab s n = none) :
    findTab (addTab s n) n = some ⟨n, []⟩ := by
  unfold findTab at h ⊢
  unfold addTab
  simp [List.find?_append, h]

theorem find?_title_map (tabs : List Tab) (n : Str) (rows : List Row) (t : Tab)
    (h : tabs.find? (fun u => u.title == n) = some t) :
    (tabs.map (fun u => if u.title == n then Tab.mk u.title rows else u)).find?
        (fun u => u.title == n) = some ⟨n, rows⟩ := by
  induction tabs with
  | nil => simp at h
  | cons hd tl ih =>
    by_cases hh : hd.title = n
    · rw [List.map_cons, if_pos (by simpa using hh), hh,
        List.find?_cons_of_pos _ (by simp)]
    · rw [List.find?_cons_of_neg _ (by simpa using hh)] at h
      rw [List.map_cons, if_neg (by simpa using hh),
        List.find?_cons_of_neg _ (by simpa using hh)]
      exact ih h

theorem findTab_setTabRows_self (s : Spreadsheet) (n : Str) (rows : List Row) (t : Tab)
    (h : findTab s n = some t) : findTab (setTabRows s n rows) n = some ⟨n, rows⟩ := by
  obtain ⟨tabs⟩ := s
  unfold findTab at h ⊢
  unfold setTabRows
  exact find?_title_map tabs n rows t h

theorem setTabRows_setTabRows (s : Spreadsheet) (n : Str) (r1 r2 : List Row) :
    setTabRows (setTabRows s n r1) n r2 = setTabRows s n r2 := by
  unfold setTabRows
  simp only [List.map_map, Spreadsheet.mk.injEq]
  apply List.map_congr_left
  intro t _
  by_cases h : t.title == n <;> simp [Function.comp, h]

theorem includes_parse_range_self :
    includesSub (ApiErr.detail ApiErr.unableToParseRange) unableToParseRangeMsg = true := by
  decide

end StateLemmas

section ClaimC3

/-- C3: for every booking appended via `appendUserDetails`: if the
target tab does not yet exist (the header-range read fails with an
unparseable-range error), exactly one header-creation sequence (create
tab, write header row) is performed followed by exactly one row append;
if the tab already exists, header creation is skipped and exactly one
row append is performed.  The call trace is characterized exactly. -/
theorem append_header_creation_trace (env : Env) (w : W) (timestamp : Str)
    (details : StoreUserDetailsInput) (hc : env.sheetsClient = true)
    (hid : optTruthy env.sheetId = true) (hf : w.faults = []) :
    (findTab w.st (bookingsName env) = none →
      appendUserDetails env timestamp details w =
        (.ok (),
          { st := setTabRows (addTab w.st (bookingsName env)) (bookingsName env)
                    [sheetHeaders, bookingRow timestamp details]
            faults := []
            calls := w.calls ++
              [.get (.headerRow (bookingsName env)),
               .addSheet (bookingsName env),
               .update (.cellA1 (bookingsName env)) [sheetHeaders],
               .append (.whole (bookingsName env)) [bookingRow timestamp details]]
            logs := w.logs })) ∧
    (∀ t, findTab w.st (bookingsName env) = some t →
      appendUserDetails env timestamp details w =
        (.ok (),
          { st := setTabRows w.st (bookingsName env)
                    (t.rows ++ [bookingRow timestamp details])
            faults := []
            calls := w.calls ++
              [.get (.headerRow (bookingsName env)),
               .append (.whole (bookingsName env)) [bookingRow timestamp details]]
            logs := w.logs })) := by
  constructor
  · intro h
    have h1 : findTab (addTab w.st (bookingsName env)) (bookingsName env) =
        some ⟨bookingsName env, []⟩ := findTab_addTab_self _ _ h
    have h2 : findTab (setTabRows (addTab w.st (bookingsName env)) (bookingsName env)
        [sheetHeaders]) (bookingsName env) = some ⟨bookingsName env, [sheetHeaders]⟩ :=
      findTab_setTabRows_self _ _ _ _ h1
    simp [appendUserDetails, appendUserDetailsBody, ensureSheetAndHeader, apiGet, apiAppend,
      apiUpdate, apiAddSheet, takeFault, recordCall, hf, hc, hid, h, h1, h2, SRange.tab,
      SRange.startRow, includes_parse_range_self, overwriteRows, writeRows, writeRow,
      setTabRows_setTabRows]
  · intro t h
    simp [appendUserDetails, appendUserDetailsBody, ensureSheetAndHeader, apiGet, apiAppend,
      takeFault, recordCall, hf, hc, hid, h, SRange.tab]

def envB : Env :=
  { sheetsClient := true, calendarClient := false, sheetId := some "sid".toList
    sheetName := none, settingsSheetName := none, calendarId := none, meetLink := none }

/-- Witness for C3 at the empty spreadsheet: the tab is created once,
the header written once, and the row appended once. -/
theorem append_header_creation_trace_witness :
    appendUserDetails envB "ts".toList details0 w0 =
      (.ok (),
        { st := setTabRows (addTab w0.st (bookingsName envB)) (bookingsName envB)
                  [sheetHeaders, bookingRow "ts".toList details0]
          faults := []
          calls := w0.calls ++
            [.get (.headerRow (bookingsName envB)),
             .addSheet (bookingsName envB),
             .update (.cellA1 (bookingsName envB)) [sheetHeaders],
             .append (.whole (bookingsName envB)) [bookingRow "ts".toList details0]]
          logs := w0.logs }) :=
  (append_header_creation_trace envB w0 "ts".toList details0 rfl rfl rfl).1 rfl

end ClaimC3

section ClaimC6

/-- C6 (amended): for every bookings sheet whose header row lacks the
configured date column header, `getBookingCountsForMonth` returns an
empty mapping and logs a warning; `getBookedTimeSlotsForDay` returns an
empty mapping and logs a warning whenever the sheet has at least one
data row, but on a sheet consisting of the header row alone it returns
the empty mapping without logging.  Neither function throws: both are
total and every remote failure is converted to an empty result. -/
theorem header_missing_warns (env : Env) (w : W) (year month : Nat) (date : Str)
    (tb : Tab) (hdr : Row) (rest : List Row)
    (hc : env.sheetsClient = true) (hid : optTruthy env.sheetId = true)
    (hf : w.faults = [])
    (htab : findTab w.st (bookingsName env) = some tb)
    (hrows : tb.rows = hdr :: rest)
    (hnodate : hdr.findIdx? (fun h => h == bookingDateHeader) = none) :
    (getBookingCountsForMonth env year month w).1 = [] ∧
    (getBookingCountsForMonth env year month w).2.logs = w.logs ++ [warnNoDateColumn] ∧
    (rest ≠ [] →
      (getBookedTimeSlotsForDay env date w).1 = [] ∧
      (getBookedTimeSlotsForDay env date w).2.logs = w.logs ++ [warnNoDateTimeColumns]) ∧
    (rest = [] →
      (getBookedTimeSlotsForDay env date w).1 = [] ∧
      (getBookedTimeSlotsForDay env date w).2.logs = w.logs) := by
  refine ⟨?_, ?_, fun hne => ?_, fun hnil => ?_⟩ <;>
    simp [getBookingCountsForMonth, getBookedTimeSlotsForDay, apiGet, takeFault, recordCall,
      logNote, hf, hc, hid, htab, hrows, hnodate, SRange.tab, sliceRows]
  · rcases rest with _ | ⟨a, t⟩
    · exact absurd rfl hne
    · have h2 : ¬(t.length + 1 + 1 < 2) := by omega
      simp [h2]
  · simp [hnil]

def wC6 : W :=
  { st := ⟨[⟨"Bookings".toList, [["X".toList], ["Y".toList]]⟩]⟩
    faults := [], calls := [], logs := [] }

/-- Witness for C6 (amended) at a concrete two-row sheet without a Date
header. -/
theorem header_missing_warns_witness :
    (getBookingCountsForMonth envB 2024 4 wC6).1 = [] ∧
    (getBookingCountsForMonth envB 2024 4 wC6).2.logs = wC6.logs ++ [warnNoDateColumn] ∧
    ([["Y".toList]] ≠ ([] : List Row) →
      (getBookedTimeSlotsForDay envB "2024-05-10".toList wC6).1 = [] ∧
      (getBookedTimeSlotsForDay envB "2024-05-10".toList wC6).2.logs =
        wC6.logs ++ [warnNoDateTimeColumns]) ∧
    ([["Y".toList]] = ([] : List Row) →
      (getBookedTimeSlotsForDay envB "2024-05-10".toList wC6).1 = [] ∧
      (getBookedTimeSlotsForDay envB "2024-05-10".toList wC6).2.logs = wC6.logs) :=
  header_missing_warns envB wC6 2024 4 "2024-05-10".toList
    ⟨"Bookings".toList, [["X".toList], ["Y".toList]]⟩ ["X".toList] [["Y".toList]]
    rfl rfl rfl rfl rfl rfl

def wC6single : W :=
  { st := ⟨[⟨"Bookings".toList, [["X".toList]]⟩]⟩
    faults := [], calls := [], logs := [] }

/-- Counterexample to C6 as stated: on a bookings sheet consisting of a
single header row that lacks the date column header,
`getBookedTimeSlotsForDay` returns the empty mapping but logs no
warning at all (its early `rows.length < 2` return precedes the header
check), contradicting the claim that both count functions log a
warning. -/
theorem header_missing_warns_cex :
    (getBookedTimeSlotsForDay envB "2024-05-10".toList wC6single).1 = [] ∧
    (getBookedTimeSlotsForDay envB "2024-05-10".toList wC6single).2.logs = [] := by
  constructor <;> rfl

end ClaimC6

section BumpLemmas

theorem find?_map_incr_ne (m : CountMap) (k t : Str) (hne : (k == t) = false) :
    (m.map (fun p => if p.1 == k then (p.1, p.2 + 1) else p)).find? (fun p => p.1 == t) =
      m.find? (fun p => p.1 == t) := by
  induction m with
  | nil => rfl
  | cons q m ih =>
    by_cases hq : q.1 == k
    · have hqk : q.1 = k := by simpa using hq
      have hqt : (q.1 == t) = false := by rw [hqk]; exact hne
      rw [List.map_cons, if_pos hq, List.find?_cons_of_neg _ (by simp [hqt]),
        List.find?_cons_of_neg _ (by simp [hqt])]
      exact ih
    · rw [List.map_cons, if_neg hq]
      by_cases hqt : q.1 == t
      · rw [List.find?_cons_of_pos (p := fun u : Str × Nat => u.1 == t) _ hqt,
          List.find?_cons_of_pos (p := fun u : Str × Nat => u.1 == t) _ hqt]
      · rw [List.find?_cons_of_neg (p := fun u : Str × Nat => u.1 == t) _ hqt,
          List.find?_cons_of_neg (p := fun u : Str × Nat => u.1 == t) _ hqt]
        exact ih

theorem find?_map_incr_self (m : CountMap) (k : Str) :
    (m.map (fun p => if p.1 == k then (p.1, p.2 + 1) else p)).find? (fun p => p.1 == k) =
      (m.find? (fun p => p.1 == k)).map (fun p => (p.1, p.2 + 1)) := by
  induction m with
  | nil => rfl
  | cons q m ih =>
    by_cases hq : q.1 == k
    · rw [List.map_cons, if_pos hq,
        List.find?_cons_of_pos (p := fun u : Str × Nat => u.1 == k)
          (a := ((q.1, q.2 + 1) : Str × Nat)) _ hq,
        List.find?_cons_of_pos (p := fun u : Str × Nat => u.1 == k) _ hq]
      rfl
    · rw [List.map_cons, if_neg hq, List.find?_cons_of_neg (p := fun u : Str × Nat => u.1 == k) _ hq,
        List.find?_cons_of_neg (p := fun u : Str × Nat => u.1 == k) _ hq]
      exact ih

theorem lookupCount_bump (m : CountMap) (k t : Str) :
    lookupCount (bump m k) t = lookupCount m t + (if t = k then 1 else 0) := by
  unfold bump
  by_cases hany : m.any (fun p => p.1 == k)
  · rw [if_pos hany]
    by_cases ht : t = k
    · subst ht
      rcases h : m.find? (fun p => p.1 == t) with _ | p
      · rw [List.find?_eq_none] at h
        rw [List.any_eq_true] at hany
        obtain ⟨x, hx, hpx⟩ := hany
        exact absurd hpx (h x hx)
      · unfold lookupCount
        rw [find?_map_incr_self, h]
        simp
    · have hkt : (k == t) = false := by
        rw [beq_eq_false_iff_ne]
        exact fun h => ht h.symm
      unfold lookupCount
      rw [find?_map_incr_ne m k t hkt]
      simp [ht]
  · rw [if_neg hany]
    have hnone : m.find? (fun p => p.1 == k) = none := by
      rw [List.find?_eq_none]
      intro x hx hpx
      exact hany (List.any_eq_true.mpr ⟨x, hx, hpx⟩)
    by_cases ht : t = k
    · subst ht
      unfold lookupCount
      rw [List.find?_append, hnone]
      simp [List.find?]
    · have hkt : (k == t) = false := by
        rw [beq_eq_false_iff_ne]
        exact fun h => ht h.symm
      unfold lookupCount
      rw [List.find?_append]
      have h1 : [((k : Str), 1)].find? (fun p => p.1 == t) = none := by
        simp [List.find?, hkt]
      rw [h1]
      simp [ht]

theorem lookupCount_foldl_time (rows : List Row) (timeIdx : Nat) (m : CountMap) (t : Str) :
    lookupCount
        (rows.foldl
          (fun m row =>
            let time := row.getD timeIdx []
            if time.isEmpty then m else bump m time)
          m) t =
      lookupCount m t +
        rows.countP (fun row => row.getD timeIdx [] == t && !(row.getD timeIdx []).isEmpty) := by
  induction rows generalizing m with
  | nil => simp
  | cons r rows ih =>
    rw [List.foldl_cons, List.countP_cons]
    by_cases he : (r.getD timeIdx []).isEmpty
    · have h1 : (r.getD timeIdx [] == t && !(r.getD timeIdx []).isEmpty) = false := by
        rw [he]
        simp
      rw [if_pos he, ih, h1]
      simp
    · have hf : (r.getD timeIdx []).isEmpty = false := Bool.eq_false_iff.mpr he
      rw [if_neg he, ih, lookupCount_bump]
      by_cases ht : t = r.getD timeIdx []
      · have h2 : (r.getD timeIdx [] == t && !(r.getD timeIdx []).isEmpty) = true := by
          rw [ht, hf]
          simp
        rw [if_pos ht, h2]
        simp
        omega
      · have h1 : (r.getD timeIdx [] == t) = false := by
          rw [beq_eq_false_iff_ne]
          exact fun h => ht h.symm
        have h2 : (r.getD timeIdx [] == t && !(r.getD timeIdx []).isEmpty) = false := by
          rw [h1]
          simp
        rw [if_neg ht, h2]
        simp

end BumpLemmas

section ClaimC9

def wC9 : W :=
  { st := ⟨[⟨"Bookings".toList,
      [[bookingDateHeader, bookingTimeHeader],
       ["05/10/2024".toList, "10:00".toList]]⟩]⟩
    faults := [], calls := [], logs := [] }

/-- C9: `getBookedTimeSlotsForDay` selects rows by exact string equality
between the row's date cell and the requested date argument, with no
date parsing or format normalization: the count of every time slot is
the number of data rows whose date cell is string-identical to the
requested date (and whose time cell is that slot and truthy).  The two
closed conjuncts exhibit the contrast: a row storing `05/10/2024` is
not counted when `2024-05-10` — the same calendar day in another
format — is requested, although `getBookingCountsForMonth`, which
parses dates, counts that very row under its ISO key. -/
theorem slots_exact_string_match (env : Env) (w : W) (date : Str)
    (tb : Tab) (hdr : Row) (rest : List Row) (dateIdx timeIdx : Nat)
    (hc : env.sheetsClient = true) (hid : optTruthy env.sheetId = true)
    (hf : w.faults = [])
    (htab : findTab w.st (bookingsName env) = some tb)
    (hrows : tb.rows = hdr :: rest)
    (hd : hdr.findIdx? (fun h => h == bookingDateHeader) = some dateIdx)
    (ht : hdr.findIdx? (fun h => h == bookingTimeHeader) = some timeIdx) :
    (∀ t, lookupCount (getBookedTimeSlotsForDay env date w).1 t =
        rest.countP (fun row =>
          (row.getD timeIdx [] == t && !(row.getD timeIdx []).isEmpty) &&
            row.getD dateIdx [] == date)) ∧
    (getBookedTimeSlotsForDay envB "2024-05-10".toList wC9).1 = [] ∧
    (getBookingCountsForMonth envB 2024 4 wC9).1 = [("2024-05-10".toList, 1)] := by
  refine ⟨fun t => ?_, rfl, rfl⟩
  have hres : (getBookedTimeSlotsForDay env date w).1 = countSlots date dateIdx timeIdx rest := by
    rcases hrest : rest with _ | ⟨r0, rs⟩
    · rw [hrest] at hrows
      simp [getBookedTimeSlotsForDay, apiGet, takeFault, recordCall, hf, hc, hid, htab,
        hrows, sliceRows, SRange.tab, countSlots]
    · rw [hrest] at hrows
      have hlen : ¬(rs.length + 1 + 1 < 2) := by omega
      simp [getBookedTimeSlotsForDay, apiGet, takeFault, recordCall, hf, hc, hid, htab,
        hrows, sliceRows, SRange.tab, hd, ht, hlen]
  rw [hres]
  unfold countSlots
  rw [lookupCount_foldl_time, List.countP_filter]
  simp [lookupCount]

/-- Witness for C9: with one row stored under the exact requested date
string, the slot count for its time is 1. -/
theorem slots_exact_string_match_witness :
    lookupCount
        (getBookedTimeSlotsForDay envB "2024-05-10".toList
          { st := ⟨[⟨"Bookings".toList,
              [[bookingDateHeader, bookingTimeHeader],
               ["2024-05-10".toList, "10:00".toList]]⟩]⟩
            faults := [], calls := [], logs := [] }).1 "10:00".toList = 1 :=
  (slots_exact_string_match envB
    { st := ⟨[⟨"Bookings".toList,
        [[bookingDateHeader, bookingTimeHeader],
         ["2024-05-10".toList, "10:00".toList]]⟩]⟩
      faults := [], calls := [], logs := [] }
    "2024-05-10".toList
    ⟨"Bookings".toList,
      [[bookingDateHeader, bookingTimeHeader], ["2024-05-10".toList, "10:00".toList]]⟩
    [bookingDateHeader, bookingTimeHeader] [["2024-05-10".toList, "10:00".toList]] 0 1
    rfl rfl rfl rfl rfl rfl rfl).1 "10:00".toList

end ClaimC9

section ClaimC2

def wC2 : W :=
  { st := ⟨[⟨"Bookings".toList,
      [[bookingDateHeader],
       ["2024-05-10".toList],
       ["2024-05-10".toList],
       ["2024-06-01".toList],
       ["not a date".toList]]⟩]⟩
    faults := [], calls := [], logs := [] }

/-- C2 evidence: at a sheet holding two rows for 2024-05-10, one row in
another month and one unparseable row, `getBookingCountsForMonth` for
May 2024 (month index 4) returns exactly the in-month ISO key with
count 2 — duplicates counted, out-of-month and unparseable rows
skipped — but the console log stays empty: no warning is emitted for
the unparseable row, because JS date parsing yields an invalid-date
value rather than throwing, so the catch block that would log the
warning never runs.  This contradicts both the claim and the code's own
warning branch. -/
theorem month_counts_skip_without_warning :
    (getBookingCountsForMonth envB 2024 4 wC2).1 = [("2024-05-10".toList, 2)] ∧
    (getBookingCountsForMonth envB 2024 4 wC2).2.logs = [] := by
  constructor <;> rfl

end ClaimC2

section LogsPreservation

theorem apiGet_logs (w : W) (r : SRange) : (apiGet w r).2.logs = w.logs := by
  unfold apiGet takeFault recordCall
  rcases h : w.faults with _ | ⟨f, fs⟩
  · simp only [h]
    rcases hft : findTab w.st r.tab with _ | t <;> simp [hft]
  · simp only [h]
    rcases f with _ | e
    · rcases hft : findTab w.st r.tab with _ | t <;> simp [hft]
    · simp

theorem apiAppend_logs (w : W) (r : SRange) (vs : List Row) :
    (apiAppend w r vs).2.logs = w.logs := by
  unfold apiAppend takeFault recordCall
  rcases h : w.faults with _ | ⟨f, fs⟩
  · simp only [h]
    rcases hft : findTab w.st r.tab with _ | t <;> simp [hft]
  · simp only [h]
    rcases f with _ | e
    · rcases hft : findTab w.st r.tab with _ | t <;> simp [hft]
    · simp

theorem apiUpdate_logs (w : W) (r : SRange) (vs : List Row) :
    (apiUpdate w r vs).2.logs = w.logs := by
  unfold apiUpdate takeFault recordCall
  rcases h : w.faults with _ | ⟨f, fs⟩
  · simp only [h]
    rcases hft : findTab w.st r.tab with _ | t <;> simp [hft]
  · simp only [h]
    rcases f with _ | e
    · rcases hft : findTab w.st r.tab with _ | t <;> simp [hft]
    · simp

theorem apiAddSheet_logs (w : W) (n : Str) : (apiAddSheet w n).2.logs = w.logs := by
  unfold apiAddSheet takeFault recordCall
  rcases h : w.faults with _ | ⟨f, fs⟩
  · simp only [h]
    rcases hft : findTab w.st n with _ | t <;> simp [hft]
  · simp only [h]
    rcases f with _ | e
    · rcases hft : findTab w.st n with _ | t <;> simp [hft]
    · simp

theorem ensureSheetAndHeader_logs (w : W) (n : Str) (hdrs : Row) :
    (ensureSheetAndHeader w n hdrs).2.logs = w.logs := by
  have hg := apiGet_logs w (.headerRow n)
  unfold ensureSheetAndHeader
  rcases hEq : apiGet w (.headerRow n) with ⟨r1, w1⟩
  rw [hEq] at hg
  simp only at hg
  rcases r1 with e | v
  · by_cases hi : includesSub e.detail unableToParseRangeMsg
    · have ha := apiAddSheet_logs w1 n
      rcases hAdd : apiAddSheet w1 n with ⟨r2, w2⟩
      rw [hAdd] at ha
      simp only at ha
      rcases r2 with e2 | v2
      · by_cases hi2 : includesSub e2.detail alreadyExistsMsg
        · have hu := apiUpdate_logs w2 (.cellA1 n) [hdrs]
          simp [hEq, hAdd, hi, hi2, hu, ha, hg]
        · simp [hEq, hAdd, hi, hi2, ha, hg]
      · have hu := apiUpdate_logs w2 (.cellA1 n) [hdrs]
        simp [hEq, hAdd, hi, hu, ha, hg]
    · simp [hEq, hi, hg]
  · simp [hEq, hg]

theorem appendUserDetailsBody_logs (env : Env) (ts : Str) (d : StoreUserDetailsInput)
    (w : W) : (appendUserDetailsBody env ts d w).2.logs = w.logs := by
  have he := ensureSheetAndHeader_logs w (bookingsName env) sheetHeaders
  unfold appendUserDetailsBody
  rcases hEq : ensureSheetAndHeader w (bookingsName env) sheetHeaders with ⟨r1, w1⟩
  rw [hEq] at he
  simp only at he
  rcases r1 with e | v
  · simp [hEq, he]
  · have ha := apiAppend_logs w1 (.whole (bookingsName env)) [bookingRow ts d]
    simp [hEq, ha, he]

theorem ensureSettingsSheetBody_logs (n : Str) (w : W) :
    (ensureSettingsSheetBody n w).2.logs = w.logs := by
  have he := ensureSheetAndHeader_logs w n settingsSheetHeaders
  unfold ensureSettingsSheetBody
  rcases hEq : ensureSheetAndHeader w n settingsSheetHeaders with ⟨r1, w1⟩
  rw [hEq] at he
  simp only at he
  rcases r1 with e | v
  · simp [hEq, he]
  · have hg := apiGet_logs w1 (.kvBlock n)
    rcases hG : apiGet w1 (.kvBlock n) with ⟨r2, w2⟩
    rw [hG] at hg
    simp only at hg
    rcases r2 with e2 | values
    · simp [hEq, hG, hg, he]
    · have ha := fun vs => apiAppend_logs w2 (.cellA2 n) vs
      by_cases h1 : mapHas values awKey <;> by_cases h2 : mapHas values ddKey <;>
        by_cases h3 : mapHas values atsKey <;>
        simp [hEq, hG, h1, h2, h3, ha, hg, he]

theorem ensureSettingsSheet_logs (n : Str) (w : W) :
    (ensureSettingsSheet n w).2.logs = w.logs := by
  have hb := ensureSettingsSheetBody_logs n w
  unfold ensureSettingsSheet
  rcases hEq : ensureSettingsSheetBody n w with ⟨r1, w1⟩
  rw [hEq] at hb
  simp only at hb
  rcases r1 with e | v
  · by_cases hi : includesSub e.detail unableToParseRangeMsg
    · have hu := apiUpdate_logs w1 (.cellA2 n) defaultSettingsRows
      simp [hEq, hi, hu, hb]
    · simp [hEq, hi, hb]
  · simp [hEq, hb]

theorem updateSettingsBody_logs (n : Str) (s : SchedulerSettings) (w : W) :
    (updateSettingsBody n s w).2.logs = w.logs := by
  have he := ensureSettingsSheet_logs n w
  unfold updateSettingsBody
  rcases hEq : ensureSettingsSheet n w with ⟨r1, w1⟩
  rw [hEq] at he
  simp only at he
  rcases r1 with e | v
  · simp [hEq, he]
  · have hu := apiUpdate_logs w1 (.kvBlock n) (settingsRows s)
    simp [hEq, hu, he]

end LogsPreservation

section ClaimC8

/-- C8: for every remote API failure during a write operation
(`appendUserDetails` or `updateSchedulerSettingsInSheet`, configuration
present), the failure is logged with upstream detail and the error
re-raised to the caller is the fixed sanitized user-facing message,
identical for every upstream failure and hence carrying no upstream
detail. -/
theorem write_errors_sanitized (env : Env) (w : W) (ts : Str)
    (details : StoreUserDetailsInput) (s : SchedulerSettings) (m1 m2 : Str) (w1 w2 : W)
    (hc : env.sheetsClient = true) (hid : optTruthy env.sheetId = true) :
    (appendUserDetails env ts details w = (.error m1, w1) →
      m1 = appendFailMsg ∧ ∃ e, w1.logs = w.logs ++ [appendErrorLog e]) ∧
    (updateSchedulerSettingsInSheet env s w = (.error m2, w2) →
      m2 = settingsFailMsg ∧ ∃ e, w2.logs = w.logs ++ [settingsUpdateErrorLog e]) := by
  constructor
  · intro h
    have hb := appendUserDetailsBody_logs env ts details w
    unfold appendUserDetails at h
    rcases hEq : appendUserDetailsBody env ts details w with ⟨r1, wB⟩
    rw [hEq] at hb h
    simp only at hb
    simp only [hc, hid, Bool.not_true, Bool.false_eq_true, if_false] at h
    rcases r1 with e | v
    · simp only [logNote, Prod.mk.injEq, Except.error.injEq] at h
      refine ⟨h.1.symm, e, ?_⟩
      rw [← h.2]
      simp [hb]
    · simp at h
  · intro h
    have hb := updateSettingsBody_logs (settingsName env) s w
    unfold updateSchedulerSettingsInSheet at h
    rcases hEq : updateSettingsBody (settingsName env) s w with ⟨r1, wB⟩
    rw [hEq] at hb h
    simp only at hb
    simp only [hc, hid, Bool.not_true, Bool.false_eq_true, if_false] at h
    rcases r1 with e | v
    · simp only [logNote, Prod.mk.injEq, Except.error.injEq] at h
      refine ⟨h.1.symm, e, ?_⟩
      rw [← h.2]
      simp [hb]
    · simp at h

def wFault : W :=
  { st := ⟨[]⟩, faults := [some (.injected "upstream boom".toList)], calls := [], logs := [] }

/-- Witness for C8: an injected remote failure on the append path yields
the fixed sanitized message, and the upstream detail goes to the log. -/
theorem write_errors_sanitized_witness :
    appendFailMsg = appendFailMsg ∧
    ∃ e, [appendErrorLog (ApiErr.injected "upstream boom".toList)] =
      wFault.logs ++ [appendErrorLog e] :=
  (write_errors_sanitized envB wFault "ts".toList details0 DEFAULT_SETTINGS
      appendFailMsg settingsFailMsg
      { st := ⟨[]⟩, faults := [], calls := [.get (.headerRow "Bookings".toList)]
        logs := [appendErrorLog (.injected "upstream boom".toList)] }
      w0 rfl rfl).1 rfl

end ClaimC8

section RoundTripLemmas

theorem splitComma_joinComma (l : List Str) (hl : l ≠ []) (hx : ∀ x ∈ l, ',' ∉ x) :
    splitComma (joinComma l) = l :=
  List.splitOn_intercalate l ',' hx hl

theorem natChars_digit_facts :
    ∀ w < 10, toNumber (natChars w) = w ∧ natChars w ≠ [] ∧ ',' ∉ natChars w := by
  decide

theorem joinComma_ne_nil (l : List Str) (hl : l ≠ []) (hx : ∀ x ∈ l, ',' ∉ x)
    (hne : ∀ x ∈ l, x ≠ []) : joinComma l ≠ [] := by
  intro h
  have h2 := splitComma_joinComma l hl hx
  rw [h] at h2
  have h3 : splitComma ([] : Str) = [[]] := rfl
  rw [h3] at h2
  rcases l with _ | ⟨a, l⟩
  · exact hl rfl
  · have h4 : ([] : Str) = a := (List.cons_eq_cons.mp h2).1
    exact hne a (by simp) h4.symm

theorem isEmpty_false_of_ne_nil (l : Str) (h : l ≠ []) : l.isEmpty = false := by
  cases l with
  | nil => exact absurd rfl h
  | cons a l => rfl

theorem weekdays_roundtrip (aw : List Nat) (hne : aw ≠ []) (hb : ∀ x ∈ aw, x < 10) :
    (splitComma (joinComma (aw.map natChars))).map toNumber = aw := by
  rw [splitComma_joinComma (aw.map natChars) (by simpa using hne) ?hx]
  case hx =>
    intro x hx
    obtain ⟨a, ha, rfl⟩ := List.mem_map.mp hx
    exact (natChars_digit_facts a (hb a ha)).2.2
  rw [List.map_map]
  have h1 : aw.map (toNumber ∘ natChars) = aw.map id :=
    List.map_congr_left fun a ha => (natChars_digit_facts a (hb a ha)).1
  rw [h1, List.map_id]

theorem weekdays_join_ne_nil (aw : List Nat) (hne : aw ≠ []) (hb : ∀ x ∈ aw, x < 10) :
    joinComma (aw.map natChars) ≠ [] := by
  apply joinComma_ne_nil _ (by simpa using hne)
  · intro x hx
    obtain ⟨a, ha, rfl⟩ := List.mem_map.mp hx
    exact (natChars_digit_facts a (hb a ha)).2.2
  · intro x hx
    obtain ⟨a, ha, rfl⟩ := List.mem_map.mp hx
    exact (natChars_digit_facts a (hb a ha)).2.1

theorem strs_roundtrip (l : List Str) (hne : l ≠ []) (hx : ∀ x ∈ l, x ≠ [] ∧ ',' ∉ x) :
    splitComma (joinComma l) = l ∧ joinComma l ≠ [] :=
  ⟨splitComma_joinComma l hne (fun x hxm => (hx x hxm).2),
   joinComma_ne_nil l hne (fun x hxm => (hx x hxm).2) (fun x hxm => (hx x hxm).1)⟩

end RoundTripLemmas

section SettingsStateLemmas

theorem settingsKey_beq_facts :
    (awKey == ddKey) = false ∧ (awKey == atsKey) = false ∧
    (ddKey == awKey) = false ∧ (ddKey == atsKey) = false ∧
    (atsKey == awKey) = false ∧ (atsKey == ddKey) = false := by
  decide

theorem updateSettings_fresh (env : Env) (s : SchedulerSettings) (w : W)
    (hc : env.sheetsClient = true) (hid : optTruthy env.sheetId = true)
    (hf : w.faults = []) (htab : findTab w.st (settingsName env) = none) :
    updateSchedulerSettingsInSheet env s w =
      (.ok (),
        { st := setTabRows (addTab w.st (settingsName env)) (settingsName env)
            (settingsSheetHeaders :: settingsRows s)
          faults := []
          calls := w.calls ++
            [.get (.headerRow (settingsName env)),
             .addSheet (settingsName env),
             .update (.cellA1 (settingsName env)) [settingsSheetHeaders],
             .get (.kvBlock (settingsName env)),
             .append (.cellA2 (settingsName env)) defaultSettingsRows,
             .update (.kvBlock (settingsName env)) (settingsRows s)]
          logs := w.logs }) := by
  have h1 : findTab (addTab w.st (settingsName env)) (settingsName env) =
      some ⟨settingsName env, []⟩ := findTab_addTab_self _ _ htab
  have h2 : findTab (setTabRows (addTab w.st (settingsName env)) (settingsName env)
      [settingsSheetHeaders]) (settingsName env) =
      some ⟨settingsName env, [settingsSheetHeaders]⟩ :=
    findTab_setTabRows_self _ _ _ _ h1
  have h3 : findTab (setTabRows (addTab w.st (settingsName env)) (settingsName env)
      [settingsSheetHeaders,
       [awKey, joinComma (List.map natChars DEFAULT_SETTINGS.availableWeekdays)],
       [ddKey, []],
       [atsKey, joinComma DEFAULT_SETTINGS.availableTimeSlots]]) (settingsName env) =
      some ⟨settingsName env,
        [settingsSheetHeaders,
         [awKey, joinComma (List.map natChars DEFAULT_SETTINGS.availableWeekdays)],
         [ddKey, []],
         [atsKey, joinComma DEFAULT_SETTINGS.availableTimeSlots]]⟩ :=
    findTab_setTabRows_self _ _ _ _ h1
  simp [updateSchedulerSettingsInSheet, updateSettingsBody, ensureSettingsSheet,
    ensureSettingsSheetBody, ensureSheetAndHeader, apiGet, apiAppend, apiUpdate, apiAddSheet,
    takeFault, recordCall, hf, hc, hid, htab, h1, h2, h3, SRange.tab, SRange.startRow,
    includes_parse_range_self, sliceRows, overwriteRows, writeRows, writeRow,
    setTabRows_setTabRows, mapHas, defaultSettingsRows, settingsRows]

end SettingsStateLemmas

theorem getSettings_written (env : Env) (s : SchedulerSettings) (w : W)
    (hc : env.sheetsClient = true) (hid : optTruthy env.sheetId = true)
    (hf : w.faults = [])
    (htab : findTab w.st (settingsName env) =
      some ⟨settingsName env, settingsSheetHeaders :: settingsRows s⟩) :
    (getSchedulerSettingsFromSheet env w).1 =
      { availableWeekdays :=
          if (joinComma (s.availableWeekdays.map natChars)).isEmpty then
            DEFAULT_SETTINGS.availableWeekdays
          else (splitComma (joinComma (s.availableWeekdays.map natChars))).map toNumber
        disabledDates :=
          if (joinComma s.disabledDates).isEmpty then DEFAULT_SETTINGS.disabledDates
          else (splitComma (joinComma s.disabledDates)).filter (fun x => !x.isEmpty)
        availableTimeSlots :=
          if (joinComma s.availableTimeSlots).isEmpty then DEFAULT_SETTINGS.availableTimeSlots
          else splitComma (joinComma s.availableTimeSlots) } := by
  obtain ⟨hab, hac, hba, hbc, hca, hcb⟩ := settingsKey_beq_facts
  simp [getSchedulerSettingsFromSheet, getSettingsBody, ensureSettingsSheet,
    ensureSettingsSheetBody, ensureSheetAndHeader, apiGet, takeFault, recordCall, hf, hc, hid,
    htab, SRange.tab, sliceRows, mapHas, mapGet, settingsRows,
    hab, hac, hba, hbc, hca, hcb]

section ClaimC1

/-- C1 (amended): writing a settings object with
`updateSchedulerSettingsInSheet` and then reading with
`getSchedulerSettingsFromSheet` (configured client, no interleaved
external edits, settings tab not yet present, no remote faults) returns
an object equal to the one written, provided the settings survive the
comma-joined string serialization: `availableWeekdays` is a nonempty
list of weekday digits (weekdays are 0–6), `availableTimeSlots` is
nonempty, and every disabled date and time slot is a nonempty string
not containing a comma.  (Without those provisos the claim is false:
see the counterexample, where empty lists come back as the defaults and
a comma-containing slot comes back split in two.) -/
theorem settings_roundtrip (env : Env) (w : W) (s : SchedulerSettings)
    (hc : env.sheetsClient = true) (hid : optTruthy env.sheetId = true)
    (hf : w.faults = [])
    (htab : findTab w.st (settingsName env) = none)
    (haw : s.availableWeekdays ≠ []) (hawb : ∀ x ∈ s.availableWeekdays, x < 10)
    (hdd : ∀ x ∈ s.disabledDates, x ≠ [] ∧ ',' ∉ x)
    (hats : s.availableTimeSlots ≠ [])
    (hatse : ∀ x ∈ s.availableTimeSlots, x ≠ [] ∧ ',' ∉ x) :
    (updateSchedulerSettingsInSheet env s w).1 = .ok () ∧
    (getSchedulerSettingsFromSheet env (updateSchedulerSettingsInSheet env s w).2).1 = s := by
  obtain ⟨aw, dd, ats⟩ := s
  simp only at haw hawb hdd hats hatse
  have hU := updateSettings_fresh env ⟨aw, dd, ats⟩ w hc hid hf htab
  have hst : findTab (setTabRows (addTab w.st (settingsName env)) (settingsName env)
      (settingsSheetHeaders :: settingsRows ⟨aw, dd, ats⟩)) (settingsName env) =
      some ⟨settingsName env, settingsSheetHeaders :: settingsRows ⟨aw, dd, ats⟩⟩ :=
    findTab_setTabRows_self _ _ _ _ (findTab_addTab_self _ _ htab)
  refine ⟨by rw [hU], ?_⟩
  rw [hU]
  rw [getSettings_written env ⟨aw, dd, ats⟩ _ hc hid rfl hst]
  have e1 : (joinComma (aw.map natChars)).isEmpty = false :=
    isEmpty_false_of_ne_nil _ (weekdays_join_ne_nil aw haw hawb)
  have e2 : (splitComma (joinComma (aw.map natChars))).map toNumber = aw :=
    weekdays_roundtrip aw haw hawb
  obtain ⟨e3, e4⟩ := strs_roundtrip ats hats hatse
  have e4i : (joinComma ats).isEmpty = false := isEmpty_false_of_ne_nil _ e4
  have hjnil : joinComma ([] : List Str) = [] := rfl
  have hdddef : DEFAULT_SETTINGS.disabledDates = [] := rfl
  rcases dd with _ | ⟨d0, ds⟩
  · simp [e1, e2, e3, e4i, hjnil, hdddef]
  · have hddne : (d0 :: ds : List Str) ≠ [] := by simp
    obtain ⟨e5, e6⟩ := strs_roundtrip (d0 :: ds) hddne hdd
    have e6i : (joinComma (d0 :: ds)).isEmpty = false := isEmpty_false_of_ne_nil _ e6
    have e7 : ((d0 :: ds).filter (fun x => !x.isEmpty)) = d0 :: ds :=
      List.filter_eq_self.mpr fun a ha => by
        simpa using isEmpty_false_of_ne_nil a (hdd a ha).1
    simp [e1, e2, e3, e4i, e5, e6i, e7]

/-- Witness for C1 (amended) at a concrete settings object. -/
theorem settings_roundtrip_witness :
    (updateSchedulerSettingsInSheet envB
        ⟨[1, 3], ["2024-12-25".toList], ["09:00".toList, "10:00".toList]⟩ w0).1 = .ok () ∧
    (getSchedulerSettingsFromSheet envB
        (updateSchedulerSettingsInSheet envB
          ⟨[1, 3], ["2024-12-25".toList], ["09:00".toList, "10:00".toList]⟩ w0).2).1 =
      ⟨[1, 3], ["2024-12-25".toList], ["09:00".toList, "10:00".toList]⟩ :=
  settings_roundtrip envB w0
    ⟨[1, 3], ["2024-12-25".toList], ["09:00".toList, "10:00".toList]⟩
    rfl rfl rfl rfl (by decide) (by decide) (by decide) (by decide) (by decide)

/-- Counterexample to C1 as stated: the round trip is not the identity
for every settings object.  An all-empty settings object comes back as
the defaults (empty joins are falsy on read), a comma inside a time
slot comes back as two slots, and an empty disabled-date string is
dropped. -/
theorem settings_roundtrip_cex :
    (getSchedulerSettingsFromSheet envB
        (updateSchedulerSettingsInSheet envB ⟨[], [], []⟩ w0).2).1 ≠ ⟨[], [], []⟩ ∧
    (getSchedulerSettingsFromSheet envB
        (updateSchedulerSettingsInSheet envB ⟨[1], [], ["a,b".toList]⟩ w0).2).1 ≠
      ⟨[1], [], ["a,b".toList]⟩ ∧
    (getSchedulerSettingsFromSheet envB
        (updateSchedulerSettingsInSheet envB ⟨[1], [[]], ["09:00".toList]⟩ w0).2).1 ≠
      ⟨[1], [[]], ["09:00".toList]⟩ := by
  refine ⟨?_, ?_, ?_⟩ <;> decide

end ClaimC1
